import Mathlib

/-!
Verification of the Clime360 climate-analysis pipeline (src/app.py).

The embedding below translates the data-retrieval-and-analysis pipeline of
the Streamlit app into Lean: `fetch_nasa_data` (response parsing),
`analyze_climate_data` (statistics, trend, risk classification) and the
top-level two-region flow.  Numeric values are modelled as rationals.
-/

/-- One monthly observation, a row of the DataFrame built by
`fetch_nasa_data` (columns date (year, month), temperature, rainfall,
solar_radiation). -/
structure Sample where
  year : Nat
  month : Nat
  temperature : ℚ
  rainfall : ℚ
  solar_radiation : ℚ
  deriving DecidableEq

/-- The `properties.parameter` block of a NASA POWER response: one
date-key → value mapping per requested variable.  Python dict iteration
preserves insertion order, so each mapping is an association list in
response order. -/
structure ApiParams where
  t2m : List (String × ℚ)
  prectotcorr : List (String × ℚ)
  allsky : List (String × ℚ)
  deriving DecidableEq

/-- Parsed response body: either the `properties`/`parameter` path is
missing, or it carries the three variable mappings. -/
inductive ApiData where
  | noParameter
  | withParameter (p : ApiParams)
  deriving DecidableEq

/-- Outcome of `requests.get`: a raised `RequestException`
(transport error / timeout), or a response with an HTTP status code and
a JSON body. -/
inductive HttpResponse where
  | failure
  | ok (status : Nat) (body : ApiData)
  deriving DecidableEq

/-- The observable outcome of `fetch_nasa_data`: each constructor is one
distinct return path of the source (distinct message emitted + value
returned).  `success` is a DataFrame; every other constructor returns
`None` after emitting its distinct message. -/
inductive FetchOutcome where
  | success (samples : List Sample)
  | noDataError
  | emptyResult
  | networkFailure
  | unexpectedError
  deriving DecidableEq

/-- Decimal-digit run to its value, `none` on empty or non-digit input. -/
def digitsToNat? (l : List Char) : Option Nat :=
  if l ≠ [] ∧ l.all Char.isDigit then
    some (l.foldl (fun n c => n * 10 + (c.toNat - 48)) 0)
  else none

/-- Python `int(s)` restricted to the shapes that occur for date-key
slices: optional sign followed by decimal digits; anything else raises
`ValueError` (modelled as `none`). -/
def pyInt? (s : String) : Option Int :=
  match s.data with
  | '-' :: rest => (digitsToNat? rest).map (fun n => -(n : Int))
  | '+' :: rest => (digitsToNat? rest).map (fun n => (n : Int))
  | l => (digitsToNat? l).map (fun n => (n : Int))

/-- `int(date_str[:4])`, `int(date_str[4:6])`, `datetime(year, month, 1)`
from the parsing loop: yields the (year, month) of a date-key, or `none`
when either `int` or the `datetime` constructor raises `ValueError`
(Python slicing is by character; datetime accepts 1 ≤ year ≤ 9999 and
1 ≤ month ≤ 12, and day 1 is always in range). -/
def parseDate (s : String) : Option (Nat × Nat) :=
  match pyInt? ⟨s.data.take 4⟩, pyInt? ⟨(s.data.drop 4).take 2⟩ with
  | some y, some m =>
    if 1 ≤ y ∧ y ≤ 9999 ∧ 1 ≤ m ∧ m ≤ 12 then some (y.toNat, m.toNat) else none
  | _, _ => none

/-- Python dict lookup `d[k]`: `some` value, or `none` for a `KeyError`. -/
def dictLookup (d : List (String × ℚ)) (k : String) : Option ℚ :=
  (d.find? (fun e => decide (e.1 = k))).map (fun e => e.2)

/-- The four accumulator lists of the parsing loop
(`dates`, `temperatures`, `rainfall`, `solar_radiation`). -/
structure LoopState where
  dates : List (Nat × Nat)
  temps : List ℚ
  rains : List ℚ
  solars : List ℚ
  deriving DecidableEq

def initState : LoopState := ⟨[], [], [], []⟩

/-- One iteration of `for date_str, temp in parameters["T2M"].items()`.
The appends happen in source order: date and temperature are appended
before the companion lookups, so a `KeyError` on `PRECTOTCORR` (or on
`ALLSKY_SFC_SW_DWN`) hits `continue` with the earlier appends already
done. -/
def parseStep (p : ApiParams) (s : LoopState) (e : String × ℚ) : LoopState :=
  match parseDate e.1 with
  | none => s
  | some ym =>
    let s1 : LoopState := { s with dates := s.dates ++ [ym], temps := s.temps ++ [e.2] }
    match dictLookup p.prectotcorr e.1 with
    | none => s1
    | some r =>
      let s2 : LoopState := { s1 with rains := s1.rains ++ [r] }
      match dictLookup p.allsky e.1 with
      | none => s2
      | some v => { s2 with solars := s2.solars ++ [v] }

/-- The whole parsing loop over the `T2M` mapping. -/
def parseLoop (p : ApiParams) : LoopState := p.t2m.foldl (parseStep p) initState

/-- Row-wise assembly of the four columns into a DataFrame
(meaningful when the columns have equal length). -/
def zip4 : List (Nat × Nat) → List ℚ → List ℚ → List ℚ → List Sample
  | (y, m) :: ds, t :: ts, r :: rs, v :: vs => ⟨y, m, t, r, v⟩ :: zip4 ds ts rs vs
  | _, _, _, _ => []

/-- `fetch_nasa_data` from src/app.py, as a function of the HTTP
response (the network call itself is the environment).  `raise_for_status`
raises for 4xx/5xx status codes, caught as `RequestException`; a missing
`properties`/`parameter` path returns the no-data error; an empty `dates`
list returns the empty-result warning; `pd.DataFrame` raises `ValueError`
on columns of unequal length, caught by the generic handler. -/
def fetch_nasa_data (resp : HttpResponse) : FetchOutcome :=
  match resp with
  | .failure => .networkFailure
  | .ok status body =>
    if 400 ≤ status ∧ status < 600 then .networkFailure
    else
      match body with
      | .noParameter => .noDataError
      | .withParameter p =>
        let ls := parseLoop p
        if ls.dates = [] then .emptyResult
        else if ls.temps.length = ls.dates.length ∧ ls.rains.length = ls.dates.length ∧
            ls.solars.length = ls.dates.length then
          .success (zip4 ls.dates ls.temps ls.rains ls.solars)
        else .unexpectedError

/-- Arithmetic mean of a column (`Series.mean`). -/
def mean (l : List ℚ) : ℚ := l.sum / l.length

/-- The distinct years of the series in ascending order: the group keys
of `df.groupby("year")` (pandas sorts group keys ascending). -/
def yearsOf (samples : List Sample) : List Nat :=
  ((samples.map Sample.year).dedup).insertionSort (· ≤ ·)

/-- Per-year mean temperature (the `"temperature": "mean"` aggregate). -/
def yearlyTemp (samples : List Sample) (y : Nat) : ℚ :=
  mean ((samples.filter (fun s => s.year == y)).map Sample.temperature)

/-- Per-year mean rainfall (the `"rainfall": "mean"` aggregate). -/
def yearlyRain (samples : List Sample) (y : Nat) : ℚ :=
  mean ((samples.filter (fun s => s.year == y)).map Sample.rainfall)

/-- The `yearly_data` frame restricted to (year, mean temperature). -/
def yearlyPairsT (samples : List Sample) : List (Nat × ℚ) :=
  (yearsOf samples).map (fun y => (y, yearlyTemp samples y))

/-- The `yearly_data` frame restricted to (year, mean rainfall). -/
def yearlyPairsR (samples : List Sample) : List (Nat × ℚ) :=
  (yearsOf samples).map (fun y => (y, yearlyRain samples y))

/-- (year, yearly mean temperature) points fed to `np.polyfit`. -/
def tempPoints (samples : List Sample) : List (ℚ × ℚ) :=
  (yearlyPairsT samples).map (fun p => ((p.1 : ℚ), p.2))

/-- (year, yearly mean rainfall) points fed to `np.polyfit`. -/
def rainPoints (samples : List Sample) : List (ℚ × ℚ) :=
  (yearlyPairsR samples).map (fun p => ((p.1 : ℚ), p.2))

/-- Number of data points, as a rational. -/
def sN (l : List (ℚ × ℚ)) : ℚ := l.length

/-- Sum of the x coordinates. -/
def sX (l : List (ℚ × ℚ)) : ℚ := (l.map Prod.fst).sum

/-- Sum of the y coordinates. -/
def sY (l : List (ℚ × ℚ)) : ℚ := (l.map Prod.snd).sum

/-- Sum of the squared x coordinates. -/
def sXX (l : List (ℚ × ℚ)) : ℚ := (l.map (fun p => p.1 * p.1)).sum

/-- Sum of the products x·y. -/
def sXY (l : List (ℚ × ℚ)) : ℚ := (l.map (fun p => p.1 * p.2)).sum

/-- Sum of the squared y coordinates. -/
def sYY (l : List (ℚ × ℚ)) : ℚ := (l.map (fun p => p.2 * p.2)).sum

/-- `np.polyfit(x, y, 1)[0]` (third-party numpy): the slope of the
degree-1 least-squares fit, in closed form; exact on full-rank input
(at least two distinct x values). -/
def olsSlope (l : List (ℚ × ℚ)) : ℚ :=
  (sN l * sXY l - sX l * sY l) / (sN l * sXX l - sX l * sX l)

/-- The intercept of the same degree-1 least-squares fit. -/
def olsIntercept (l : List (ℚ × ℚ)) : ℚ :=
  (sY l - olsSlope l * sX l) / sN l

/-- Sum of squared residuals of the line y = a·x + b on the points `l`;
the objective that ordinary least squares minimizes. -/
def lsqError (l : List (ℚ × ℚ)) (a b : ℚ) : ℚ :=
  (l.map (fun p => (p.2 - (a * p.1 + b)) ^ 2)).sum

/-- The risk labels of the risk-assessment block. -/
inductive RiskLevel where
  | HIGH
  | MEDIUM
  | LOW
  deriving DecidableEq

/-- The risk-assessment if/elif/else chain of `analyze_climate_data`,
as a function of the raw per-year temperature slope `temp_trend`:
(risk_level, risk_color, recommendation). -/
def riskAssessment (temp_trend : ℚ) : RiskLevel × String × String :=
  if temp_trend > 2 / 100 then
    (.HIGH, "🔴", "Urgent need for heat adaptation measures")
  else if temp_trend > 1 / 100 then
    (.MEDIUM, "🟡", "Monitor trends and plan adaptation")
  else
    (.LOW, "🟢", "Maintain current climate resilience efforts")

/-- `temp_trend`: the raw per-year temperature slope of
`analyze_climate_data` (`np.polyfit` when more than one distinct year,
else the degenerate-fit guard value 0). -/
def rawTempSlope (samples : List Sample) : ℚ :=
  if 1 < (yearsOf samples).length then olsSlope (tempPoints samples) else 0

/-- `rain_trend`: the raw per-year rainfall slope of
`analyze_climate_data`. -/
def rawRainSlope (samples : List Sample) : ℚ :=
  if 1 < (yearsOf samples).length then olsSlope (rainPoints samples) else 0

/-- `Series.idxmax` on the value column of a (year, value) frame:
the row of the first occurrence of the maximum value (`none` on an
empty frame). -/
def idxmax (l : List (Nat × ℚ)) : Option (Nat × ℚ) :=
  match l with
  | [] => none
  | x :: xs => some (xs.foldl (fun b z => if b.2 < z.2 then z else b) x)

/-- The analysis dictionary returned by `analyze_climate_data`
(the `county` key is omitted: it is the echoed input name). -/
structure Analysis where
  avg_temperature : ℚ
  avg_rainfall : ℚ
  avg_solar_radiation : ℚ
  temperature_trend_per_decade : ℚ
  rainfall_trend_per_decade : ℚ
  risk_level : RiskLevel
  risk_color : String
  recommendation : String
  hottest_year : Nat
  wettest_year : Nat
  deriving DecidableEq

/-- `analyze_climate_data` from src/app.py: `None` when the input is
`None` or the DataFrame is empty, otherwise the analysis dictionary. -/
def analyze_climate_data (df : Option (List Sample)) : Option Analysis :=
  match df with
  | none => none
  | some samples =>
    if samples = [] then none
    else
      some {
        avg_temperature := mean (samples.map Sample.temperature)
        avg_rainfall := mean (samples.map Sample.rainfall)
        avg_solar_radiation := mean (samples.map Sample.solar_radiation)
        temperature_trend_per_decade := rawTempSlope samples * 10
        rainfall_trend_per_decade := rawRainSlope samples * 10
        risk_level := (riskAssessment (rawTempSlope samples)).1
        risk_color := (riskAssessment (rawTempSlope samples)).2.1
        recommendation := (riskAssessment (rawTempSlope samples)).2.2
        hottest_year := ((idxmax (yearlyPairsT samples)).map Prod.fst).getD 0
        wettest_year := ((idxmax (yearlyPairsR samples)).map Prod.fst).getD 0
      }

/-- The value `fetch_nasa_data` hands back to the caller: the DataFrame
on success, `None` on every failure path. -/
def FetchOutcome.toData : FetchOutcome → Option (List Sample)
  | .success samples => some samples
  | _ => none

/-- What the top-level button handler produced: which analyses were
computed, and whether the comparison report (metrics, risk panels,
charts, detailed profiles) was rendered. -/
structure FlowResult where
  analysis1 : Option Analysis
  analysis2 : Option Analysis
  comparisonShown : Bool
  deriving DecidableEq

/-- The top-level analysis flow of src/app.py after both fetches return:
`if data1 is not None and data2 is not None:` analyze both, then
`if analysis1 and analysis2:` render the comparison, else show an error;
otherwise show the fetch error without analyzing anything. -/
def runAnalysisFlow (o1 o2 : FetchOutcome) : FlowResult :=
  match o1.toData, o2.toData with
  | some d1, some d2 =>
    let a1 := analyze_climate_data (some d1)
    let a2 := analyze_climate_data (some d2)
    match a1, a2 with
    | some x1, some x2 => ⟨some x1, some x2, true⟩
    | _, _ => ⟨a1, a2, false⟩
  | _, _ => ⟨none, none, false⟩

/-- Modelled from the spec: the Comparison Report Builder of §4.3 is not
part of src/app.py (the source renders the two analyses side by side but
computes no deltas); per the spec it pairs the two analyses with their
signed trend deltas. -/
structure ComparisonReport where
  temperature_trend_delta : ℚ
  rainfall_trend_delta : ℚ
  deriving DecidableEq

/-- Modelled from the spec: the signed deltas of the Comparison Report
Builder (`compare(analysisA, analysisB)`), first minus second. -/
def buildComparisonReport (a b : Analysis) : ComparisonReport :=
  ⟨a.temperature_trend_per_decade - b.temperature_trend_per_decade,
   a.rainfall_trend_per_decade - b.rainfall_trend_per_decade⟩

/-- Modelled from the spec: `compare` fails/returns absent if either
input analysis is absent. -/
def compareAnalyses : Option Analysis → Option Analysis → Option ComparisonReport
  | some a, some b => some (buildComparisonReport a b)
  | _, _ => none

/-- Chronological order on samples (ascending by (year, month)). -/
def dateLt (s t : Sample) : Prop :=
  s.year < t.year ∨ (s.year = t.year ∧ s.month < t.month)

instance : DecidablePred fun p : Sample × Sample => dateLt p.1 p.2 :=
  fun p => by unfold dateLt; infer_instance

instance (s t : Sample) : Decidable (dateLt s t) := by
  unfold dateLt; infer_instance

/-- The series invariant claimed by the spec: samples sorted strictly
ascending by date (which also rules out duplicate (year, month) pairs). -/
def samplesSortedByDate (l : List Sample) : Prop := l.Pairwise dateLt

instance (l : List Sample) : Decidable (samplesSortedByDate l) := by
  unfold samplesSortedByDate; infer_instance

/-- A date-key of the temperature mapping that the spec counts as
yielding a sample: it parses to a valid year/month and has entries in
the two companion mappings. -/
def specValidKey (p : ApiParams) (k : String) : Bool :=
  (parseDate k).isSome && (dictLookup p.prectotcorr k).isSome &&
    (dictLookup p.allsky k).isSome

/-- The number of spec-valid date-keys of a response (the spec's N). -/
def specValidCount (p : ApiParams) : Nat :=
  (p.t2m.filter (fun e => specValidKey p e.1)).length

/-- Chronological order on (year, month) pairs. -/
def natDateLt (a b : Nat × Nat) : Prop :=
  a.1 < b.1 ∨ (a.1 = b.1 ∧ a.2 < b.2)

instance (a b : Nat × Nat) : Decidable (natDateLt a b) := by
  unfold natDateLt; infer_instance

/-- The stable-argmax characterization of the spec: `y` is a year of the
frame attaining the maximum value, and among the maximizing years it is
the least (= first occurrence in ascending year order). -/
def isStableArgmax (l : List (Nat × ℚ)) (y : Nat) : Prop :=
  ∃ t, (y, t) ∈ l ∧ (∀ p ∈ l, p.2 ≤ t) ∧ (∀ p ∈ l, p.2 = t → y ≤ p.1)

example : parseDate "200001" = some (2000, 1) := by decide
example : parseDate "999912" = some (9999, 12) := by decide
example : parseDate "200013" = none := by decide
example : parseDate "20000" = none := by decide
example : parseDate "-20001" = none := by decide
example : fetch_nasa_data .failure = .networkFailure := by decide
example :
    fetch_nasa_data (.ok 200 (.withParameter ⟨[("200001", 20)], [("200001", 5)], [("200001", 10)]⟩)) =
      .success [⟨2000, 1, 20, 5, 10⟩] := by decide
example :
    fetch_nasa_data (.ok 200 (.withParameter ⟨[("200001", 20), ("200002", 21)],
      [("200001", 5)], [("200001", 10), ("200002", 11)]⟩)) = .unexpectedError := by decide

/-! ### General lemmas about the yearly aggregation -/

theorem yearsOf_sorted_lt (samples : List Sample) : (yearsOf samples).Sorted (· < ·) := by
  have h1 : (yearsOf samples).Sorted (· ≤ ·) := List.sorted_insertionSort _ _
  have h2 : (yearsOf samples).Nodup :=
    ((List.perm_insertionSort _ _).nodup_iff).mpr (List.nodup_dedup _)
  exact h1.lt_of_le h2

theorem mem_yearsOf (samples : List Sample) (y : Nat) :
    y ∈ yearsOf samples ↔ y ∈ samples.map Sample.year := by
  rw [yearsOf, (List.perm_insertionSort _ _).mem_iff, List.mem_dedup]

theorem yearsOf_ne_nil (samples : List Sample) (hne : samples ≠ []) :
    yearsOf samples ≠ [] := by
  obtain ⟨s, hs⟩ := List.exists_mem_of_ne_nil samples hne
  intro h
  have : s.year ∈ yearsOf samples :=
    (mem_yearsOf samples s.year).mpr (List.mem_map.mpr ⟨s, hs, rfl⟩)
  rw [h] at this
  exact absurd this (List.not_mem_nil _)

theorem analyze_eq_some (samples : List Sample) (hne : samples ≠ []) :
    analyze_climate_data (some samples) =
      some {
        avg_temperature := mean (samples.map Sample.temperature)
        avg_rainfall := mean (samples.map Sample.rainfall)
        avg_solar_radiation := mean (samples.map Sample.solar_radiation)
        temperature_trend_per_decade := rawTempSlope samples * 10
        rainfall_trend_per_decade := rawRainSlope samples * 10
        risk_level := (riskAssessment (rawTempSlope samples)).1
        risk_color := (riskAssessment (rawTempSlope samples)).2.1
        recommendation := (riskAssessment (rawTempSlope samples)).2.2
        hottest_year := ((idxmax (yearlyPairsT samples)).map Prod.fst).getD 0
        wettest_year := ((idxmax (yearlyPairsR samples)).map Prod.fst).getD 0 } := by
  simp only [analyze_climate_data, if_neg hne]

/-! ### C1: risk classification is a step function of the raw slope -/

/-- C1: For every raw per-year temperature slope, slope > 0.02 classifies
HIGH with the urgent-adaptation recommendation, 0.01 < slope ≤ 0.02
classifies MEDIUM with the monitor/plan recommendation, and
slope ≤ 0.01 classifies LOW with the maintain-efforts recommendation;
exactly 0.02 is MEDIUM and exactly 0.01 is LOW (ties to the lower tier);
and `analyze_climate_data` classifies with exactly this function of the
raw (pre-×10) slope. -/
theorem risk_is_step_function_of_raw_slope (slope : ℚ) :
    (2 / 100 < slope →
      riskAssessment slope = (.HIGH, "🔴", "Urgent need for heat adaptation measures")) ∧
    (1 / 100 < slope ∧ slope ≤ 2 / 100 →
      riskAssessment slope = (.MEDIUM, "🟡", "Monitor trends and plan adaptation")) ∧
    (slope ≤ 1 / 100 →
      riskAssessment slope = (.LOW, "🟢", "Maintain current climate resilience efforts")) ∧
    riskAssessment (2 / 100) = (.MEDIUM, "🟡", "Monitor trends and plan adaptation") ∧
    riskAssessment (1 / 100) = (.LOW, "🟢", "Maintain current climate resilience efforts") ∧
    (∀ (samples : List Sample) (A : Analysis), analyze_climate_data (some samples) = some A →
      A.risk_level = (riskAssessment (rawTempSlope samples)).1 ∧
      A.recommendation = (riskAssessment (rawTempSlope samples)).2.2) := by
  refine ⟨?_, ?_, ?_, ?_, ?_, ?_⟩
  · intro h
    rw [riskAssessment, if_pos h]
  · intro h
    rw [riskAssessment, if_neg (not_lt.mpr h.2), if_pos h.1]
  · intro h
    rw [riskAssessment, if_neg (not_lt.mpr (h.trans (by norm_num))), if_neg (not_lt.mpr h)]
  · rw [riskAssessment, if_neg (lt_irrefl _), if_pos (by norm_num)]
  · rw [riskAssessment, if_neg (by norm_num), if_neg (lt_irrefl _)]
  · intro samples A hA
    rcases samples with _ | ⟨s, ss⟩
    · simp [analyze_climate_data] at hA
    · rw [analyze_eq_some (s :: ss) (by simp)] at hA
      obtain rfl := (Option.some.inj hA).symm
      exact ⟨rfl, rfl⟩

theorem risk_is_step_function_of_raw_slope_witness :
    riskAssessment (3 / 100) = (.HIGH, "🔴", "Urgent need for heat adaptation measures") :=
  (risk_is_step_function_of_raw_slope (3 / 100)).1 (by norm_num)

/-! ### C8: absence exactly on empty input -/

/-- C8: `analyze_climate_data` is absent on an absent or empty series,
and present (a normal value, not an error) on every series with at
least one sample. -/
theorem analyze_absent_iff_empty :
    analyze_climate_data none = none ∧
    analyze_climate_data (some []) = none ∧
    (∀ samples : List Sample, samples ≠ [] →
      (analyze_climate_data (some samples)).isSome = true) := by
  refine ⟨rfl, by simp [analyze_climate_data], ?_⟩
  intro samples h
  rw [analyze_eq_some samples h]
  rfl

theorem analyze_absent_iff_empty_witness :
    (analyze_climate_data (some [⟨2000, 1, 20, 5, 10⟩])).isSome = true :=
  analyze_absent_iff_empty.2.2 [⟨2000, 1, 20, 5, 10⟩] (by decide)

/-! ### C10: comparison deltas are antisymmetric (spec-modelled) -/

/-- C10: the comparison report's trend-delta fields are signed and
satisfy delta(A,B) = -delta(B,A); the builder is absent iff either
input analysis is absent. -/
theorem comparison_deltas_antisymmetric (a b : Analysis) :
    (buildComparisonReport a b).temperature_trend_delta =
      -(buildComparisonReport b a).temperature_trend_delta ∧
    (buildComparisonReport a b).rainfall_trend_delta =
      -(buildComparisonReport b a).rainfall_trend_delta ∧
    compareAnalyses (some a) (some b) = some (buildComparisonReport a b) ∧
    compareAnalyses none (some b) = none ∧
    compareAnalyses (some a) none = none := by
  refine ⟨?_, ?_, rfl, rfl, rfl⟩
  · simp only [buildComparisonReport]
    ring
  · simp only [buildComparisonReport]
    ring

/-! ### C7: a single-year series has trend exactly 0 -/

/-- C7: for every non-empty series whose samples all fall in one year,
the analysis is produced normally and both trend-per-decade fields are
exactly 0. -/
theorem single_year_trend_is_zero (samples : List Sample) (y : Nat)
    (hne : samples ≠ []) (hy : ∀ s ∈ samples, s.year = y) :
    (analyze_climate_data (some samples)).map
        (fun A => (A.temperature_trend_per_decade, A.rainfall_trend_per_decade)) =
      some (0, 0) := by
  have hmem : ∀ z, z ∈ yearsOf samples ↔ z = y := by
    intro z
    rw [mem_yearsOf]
    constructor
    · intro hz
      obtain ⟨s, hs, rfl⟩ := List.mem_map.mp hz
      exact hy s hs
    · rintro rfl
      obtain ⟨s, hs⟩ := List.exists_mem_of_ne_nil samples hne
      exact List.mem_map.mpr ⟨s, hs, hy s hs⟩
  have hlen : (yearsOf samples).length = 1 := by
    have hsort := yearsOf_sorted_lt samples
    rcases hzs : yearsOf samples with _ | ⟨a, _ | ⟨b, tl⟩⟩
    · exact absurd ((hmem y).mpr rfl) (by simp [hzs])
    · rfl
    · exfalso
      have ha : a = y := (hmem a).mp (by simp [hzs])
      have hb : b = y := (hmem b).mp (by simp [hzs])
      rw [hzs] at hsort
      have := List.rel_of_sorted_cons hsort b (by simp)
      omega
  have ht : rawTempSlope samples = 0 := by
    rw [rawTempSlope, if_neg (by omega)]
  have hr : rawRainSlope samples = 0 := by
    rw [rawRainSlope, if_neg (by omega)]
  rw [analyze_eq_some samples hne]
  simp [ht, hr]

theorem single_year_trend_is_zero_witness :
    (analyze_climate_data (some [⟨2000, 1, 20, 5, 10⟩])).map
        (fun A => (A.temperature_trend_per_decade, A.rainfall_trend_per_decade)) =
      some (0, 0) :=
  single_year_trend_is_zero [⟨2000, 1, 20, 5, 10⟩] 2000 (by decide) (by decide)

/-! ### Parsing-loop lemmas -/

theorem parseLoop_no_valid_dates (p : ApiParams) (l : List (String × ℚ)) (s : LoopState)
    (h : ∀ e ∈ l, parseDate e.1 = none) : l.foldl (parseStep p) s = s := by
  induction l generalizing s with
  | nil => rfl
  | cons e tl ih =>
    rw [List.foldl_cons]
    have hs : parseStep p s e = s := by
      simp only [parseStep, h e (List.mem_cons_self e tl)]
    rw [hs]
    exact ih s (fun x hx => h x (List.mem_cons_of_mem e hx))

theorem parseLoop_all_valid (p : ApiParams) (l : List (String × ℚ)) (s : LoopState)
    (h : ∀ e ∈ l, specValidKey p e.1 = true) :
    l.foldl (parseStep p) s =
      ⟨s.dates ++ l.map (fun e => (parseDate e.1).getD (0, 0)),
       s.temps ++ l.map (fun e => e.2),
       s.rains ++ l.map (fun e => (dictLookup p.prectotcorr e.1).getD 0),
       s.solars ++ l.map (fun e => (dictLookup p.allsky e.1).getD 0)⟩ := by
  induction l generalizing s with
  | nil => simp
  | cons e tl ih =>
    have he := h e (List.mem_cons_self e tl)
    simp only [specValidKey, Bool.and_eq_true, Option.isSome_iff_exists] at he
    obtain ⟨⟨⟨ym, hym⟩, ⟨r, hr⟩⟩, ⟨v, hv⟩⟩ := he
    have hstep : parseStep p s e =
        ⟨s.dates ++ [ym], s.temps ++ [e.2], s.rains ++ [r], s.solars ++ [v]⟩ := by
      simp only [parseStep, hym, hr, hv]
    rw [List.foldl_cons, hstep, ih _ (fun x hx => h x (List.mem_cons_of_mem e hx))]
    simp [hym, hr, hv]

theorem zip4_maps (l : List (String × ℚ)) (fd : String × ℚ → Nat × Nat)
    (fr fv : String × ℚ → ℚ) :
    zip4 (l.map fd) (l.map (fun e => e.2)) (l.map fr) (l.map fv) =
      l.map (fun e => ⟨(fd e).1, (fd e).2, e.2, fr e, fv e⟩) := by
  induction l with
  | nil => rfl
  | cons e tl ih => simp [zip4, ih]

/-! ### C2: a date-key missing a companion value errors the whole fetch -/

/-- C2: at a response with two parseable date-keys of which one is
missing from PRECTOTCORR (so N = 1 spec-valid date-keys), the fetch
does not return an (N)-sample series: the date/temperature columns were
already appended when the companion lookup raised `KeyError`, the frame
columns end up with unequal lengths, `pd.DataFrame` raises, and the
caller receives the unexpected-error outcome (`None`). -/
theorem missing_companion_value_errors :
    specValidCount ⟨[("200001", 20), ("200002", 21)],
        [("200001", 5)], [("200001", 10), ("200002", 11)]⟩ = 1 ∧
    fetch_nasa_data (.ok 200 (.withParameter ⟨[("200001", 20), ("200002", 21)],
        [("200001", 5)], [("200001", 10), ("200002", 11)]⟩)) = .unexpectedError ∧
    (fetch_nasa_data (.ok 200 (.withParameter ⟨[("200001", 20), ("200002", 21)],
        [("200001", 5)], [("200001", 10), ("200002", 11)]⟩))).toData = none := by
  decide

/-! ### C3: a fetch failure is not local to its region -/

/-- C3 counterexample: region 1's fetch fails while region 2's fetch
succeeds with an analyzable one-sample series, yet the flow performs no
analysis of region 2. -/
theorem fetch_failure_aborts_other_region :
    (runAnalysisFlow .networkFailure (.success [⟨2000, 1, 20, 5, 10⟩])).analysis2 = none ∧
    (analyze_climate_data (some [⟨2000, 1, 20, 5, 10⟩])).isSome = true := by
  constructor
  · rfl
  · rw [analyze_eq_some _ (by decide)]
    rfl

/-- C3 (amended): a fetch failure for either region aborts the analysis
of both regions — an analysis is performed only when both fetches
succeed, in which case each region is analyzed from its own data; the
comparison report is rendered exactly when both analyses are present. -/
theorem analyses_require_both_fetches (o1 o2 : FetchOutcome) :
    ((runAnalysisFlow o1 o2).analysis1.isSome = true →
      o1.toData.isSome = true ∧ o2.toData.isSome = true) ∧
    ((runAnalysisFlow o1 o2).analysis2.isSome = true →
      o1.toData.isSome = true ∧ o2.toData.isSome = true) ∧
    (∀ d1 d2, o1.toData = some d1 → o2.toData = some d2 →
      (runAnalysisFlow o1 o2).analysis1 = analyze_climate_data (some d1) ∧
      (runAnalysisFlow o1 o2).analysis2 = analyze_climate_data (some d2)) ∧
    ((runAnalysisFlow o1 o2).comparisonShown = true ↔
      (runAnalysisFlow o1 o2).analysis1.isSome = true ∧
      (runAnalysisFlow o1 o2).analysis2.isSome = true) := by
  rcases ho1 : o1.toData with _ | d1 <;> rcases ho2 : o2.toData with _ | d2 <;>
    simp only [runAnalysisFlow, ho1, ho2]
  · simp
  · simp
  · simp
  · rcases ha1 : analyze_climate_data (some d1) with _ | x1 <;>
      rcases ha2 : analyze_climate_data (some d2) with _ | x2 <;>
        simp [ha1, ha2]

theorem analyses_require_both_fetches_witness :
    (runAnalysisFlow (.success [⟨2000, 1, 20, 5, 10⟩])
        (.success [⟨2001, 1, 21, 6, 11⟩])).analysis1 =
      analyze_climate_data (some [⟨2000, 1, 20, 5, 10⟩]) ∧
    (runAnalysisFlow (.success [⟨2000, 1, 20, 5, 10⟩])
        (.success [⟨2001, 1, 21, 6, 11⟩])).analysis2 =
      analyze_climate_data (some [⟨2001, 1, 21, 6, 11⟩]) :=
  (analyses_require_both_fetches (.success [⟨2000, 1, 20, 5, 10⟩])
      (.success [⟨2001, 1, 21, 6, 11⟩])).2.2.1
    [⟨2000, 1, 20, 5, 10⟩] [⟨2001, 1, 21, 6, 11⟩] rfl rfl

/-! ### C4: empty result vs network failure -/

/-- C4 counterexample: a successful response with zero spec-valid
samples (its only date-key parses but both companion values are
missing) does not fail with the empty-result outcome: the desynchronized
columns make `pd.DataFrame` raise, giving the unexpected-error
outcome. -/
theorem zero_valid_samples_not_empty_result :
    specValidCount ⟨[("200001", 20)], [], []⟩ = 0 ∧
    fetch_nasa_data (.ok 200 (.withParameter ⟨[("200001", 20)], [], []⟩)) =
      .unexpectedError ∧
    FetchOutcome.unexpectedError ≠ FetchOutcome.emptyResult := by
  decide

/-- C4 (amended): a successful (non-error-status) response none of whose
T2M date-keys parses to a valid year/month fails with the empty-result
outcome; a transport error or an HTTP error status fails with the
network-failure outcome; the two outcomes are distinct, so the caller
can tell them apart.  (When some date-keys parse but companion values
are missing, the fetch fails with the unexpected-error outcome instead —
see the C2 analysis.) -/
theorem empty_result_vs_network_failure (status : Nat) (p : ApiParams) :
    (status < 400 → (∀ e ∈ p.t2m, parseDate e.1 = none) →
      fetch_nasa_data (.ok status (.withParameter p)) = .emptyResult) ∧
    (400 ≤ status → status < 600 →
      fetch_nasa_data (.ok status (.withParameter p)) = .networkFailure) ∧
    fetch_nasa_data .failure = .networkFailure ∧
    FetchOutcome.emptyResult ≠ FetchOutcome.networkFailure := by
  refine ⟨?_, ?_, rfl, by decide⟩
  · intro hs hkeys
    have hloop : parseLoop p = initState :=
      parseLoop_no_valid_dates p p.t2m initState hkeys
    have hcond : ¬(400 ≤ status ∧ status < 600) := by omega
    simp [fetch_nasa_data, hcond, hloop, initState]
  · intro h4 h6
    simp [fetch_nasa_data, h4, h6]

theorem empty_result_vs_network_failure_witness :
    fetch_nasa_data (.ok 200 (.withParameter ⟨[("x", 1)], [], []⟩)) = .emptyResult ∧
    fetch_nasa_data (.ok 404 (.withParameter ⟨[("x", 1)], [], []⟩)) = .networkFailure :=
  ⟨(empty_result_vs_network_failure 200 ⟨[("x", 1)], [], []⟩).1 (by decide) (by decide),
   (empty_result_vs_network_failure 404 ⟨[("x", 1)], [], []⟩).2.1 (by decide) (by decide)⟩

/-! ### C5: the parser preserves response order and does not sort -/

/-- C5 counterexample: a response whose (fully valid) date-keys arrive
in descending chronological order yields its samples in that same
response order, which is not ascending by date. -/
theorem fetch_out_of_order_not_sorted :
    fetch_nasa_data (.ok 200 (.withParameter ⟨[("200002", 21), ("200001", 20)],
        [("200002", 6), ("200001", 5)], [("200002", 11), ("200001", 10)]⟩)) =
      .success [⟨2000, 2, 21, 6, 11⟩, ⟨2000, 1, 20, 5, 10⟩] ∧
    ¬ samplesSortedByDate [⟨2000, 2, 21, 6, 11⟩, ⟨2000, 1, 20, 5, 10⟩] := by
  decide

/-- C5 (amended): for a successful response all of whose date-keys are
spec-valid (parse + both companions present), the fetch succeeds with
exactly one sample per date-key, in the order the keys appear in the
response — so exactly N samples, whose dates are the parsed date-keys in
response order; the series is ascending by date when (and only because)
the response's keys are in strictly ascending chronological order.  The
parser itself performs no sorting and no deduplication. -/
theorem fetch_series_in_response_order (p : ApiParams) (status : Nat)
    (hst : status < 400) (hne : p.t2m ≠ [])
    (hvalid : ∀ e ∈ p.t2m, specValidKey p e.1 = true) :
    fetch_nasa_data (.ok status (.withParameter p)) =
      .success (p.t2m.map (fun e =>
        ⟨((parseDate e.1).getD (0, 0)).1, ((parseDate e.1).getD (0, 0)).2, e.2,
         (dictLookup p.prectotcorr e.1).getD 0, (dictLookup p.allsky e.1).getD 0⟩)) ∧
    (p.t2m.map (fun e =>
        ⟨((parseDate e.1).getD (0, 0)).1, ((parseDate e.1).getD (0, 0)).2, e.2,
         (dictLookup p.prectotcorr e.1).getD 0,
         (dictLookup p.allsky e.1).getD 0⟩) : List Sample).length = p.t2m.length ∧
    ((p.t2m.map (fun e => (parseDate e.1).getD (0, 0))).Pairwise natDateLt →
      samplesSortedByDate (p.t2m.map (fun e =>
        ⟨((parseDate e.1).getD (0, 0)).1, ((parseDate e.1).getD (0, 0)).2, e.2,
         (dictLookup p.prectotcorr e.1).getD 0, (dictLookup p.allsky e.1).getD 0⟩))) := by
  have hloop : parseLoop p =
      ⟨p.t2m.map (fun e => (parseDate e.1).getD (0, 0)),
       p.t2m.map (fun e => e.2),
       p.t2m.map (fun e => (dictLookup p.prectotcorr e.1).getD 0),
       p.t2m.map (fun e => (dictLookup p.allsky e.1).getD 0)⟩ := by
    have := parseLoop_all_valid p p.t2m initState hvalid
    simpa [parseLoop, initState] using this
  have hcond : ¬(400 ≤ status ∧ status < 600) := by omega
  refine ⟨?_, by simp, ?_⟩
  · simp only [fetch_nasa_data, if_neg hcond, hloop]
    rw [if_neg (by simpa using hne)]
    rw [if_pos (by simp)]
    rw [zip4_maps]
  · intro hsorted
    rw [samplesSortedByDate, List.pairwise_map]
    rw [List.pairwise_map] at hsorted
    exact hsorted.imp (fun h => h)

theorem fetch_series_in_response_order_witness :
    fetch_nasa_data (.ok 200 (.withParameter ⟨[("200001", 20), ("200002", 21)],
        [("200001", 5), ("200002", 6)], [("200001", 10), ("200002", 11)]⟩)) =
      .success ([("200001", (20 : ℚ)), ("200002", 21)].map (fun e =>
        ⟨((parseDate e.1).getD (0, 0)).1, ((parseDate e.1).getD (0, 0)).2, e.2,
         (dictLookup [("200001", 5), ("200002", 6)] e.1).getD 0,
         (dictLookup [("200001", 10), ("200002", 11)] e.1).getD 0⟩)) :=
  (fetch_series_in_response_order ⟨[("200001", 20), ("200002", 21)],
      [("200001", 5), ("200002", 6)], [("200001", 10), ("200002", 11)]⟩ 200
    (by decide) (by decide) (by decide)).1

/-! ### C9: hottest/wettest year is a stable argmax -/

theorem foldlMax_spec (xs : List (Nat × ℚ)) : ∀ x : Nat × ℚ,
    (x :: xs).Pairwise (fun p q => p.1 < q.1) →
    xs.foldl (fun b z => if b.2 < z.2 then z else b) x ∈ x :: xs ∧
    (∀ w ∈ x :: xs, w.2 ≤ (xs.foldl (fun b z => if b.2 < z.2 then z else b) x).2) ∧
    (∀ w ∈ x :: xs, w.2 = (xs.foldl (fun b z => if b.2 < z.2 then z else b) x).2 →
      (xs.foldl (fun b z => if b.2 < z.2 then z else b) x).1 ≤ w.1) := by
  induction xs with
  | nil =>
    intro x _
    refine ⟨List.mem_cons_self _ _, ?_, ?_⟩ <;> simp
  | cons z zs ih =>
    intro x hs
    obtain ⟨hx, hrest⟩ := List.pairwise_cons.mp hs
    obtain ⟨hz, hzs⟩ := List.pairwise_cons.mp hrest
    have hxz : x.1 < z.1 := hx z (List.mem_cons_self z zs)
    by_cases hc : x.2 < z.2
    · obtain ⟨hmem, hge, hfirst⟩ := ih z hrest
      simp only [List.foldl_cons, if_pos hc]
      refine ⟨List.mem_cons_of_mem x hmem, ?_, ?_⟩
      · intro w hw
        rcases List.mem_cons.mp hw with heq | hw1
        · rw [heq]
          exact (le_of_lt hc).trans (hge z (List.mem_cons_self z zs))
        · exact hge w hw1
      · intro w hw hval
        rcases List.mem_cons.mp hw with heq | hw1
        · exfalso
          have hzr := hge z (List.mem_cons_self z zs)
          have hlt := lt_of_lt_of_le hc hzr
          rw [← hval, heq] at hlt
          exact lt_irrefl _ hlt
        · exact hfirst w hw1 hval
    · have hs2 : (x :: zs).Pairwise (fun p q => p.1 < q.1) :=
        List.pairwise_cons.mpr ⟨fun q hq => hx q (List.mem_cons_of_mem z hq), hzs⟩
      obtain ⟨hmem, hge, hfirst⟩ := ih x hs2
      simp only [List.foldl_cons, if_neg hc]
      refine ⟨?_, ?_, ?_⟩
      · rcases List.mem_cons.mp hmem with h | h
        · rw [h]
          exact List.mem_cons_self _ _
        · exact List.mem_cons_of_mem x (List.mem_cons_of_mem z h)
      · intro w hw
        rcases List.mem_cons.mp hw with heq | hw1
        · rw [heq]
          exact hge x (List.mem_cons_self x zs)
        · rcases List.mem_cons.mp hw1 with heq | hw2
          · rw [heq]
            exact (not_lt.mp hc).trans (hge x (List.mem_cons_self x zs))
          · exact hge w (List.mem_cons_of_mem x hw2)
      · intro w hw hval
        rcases List.mem_cons.mp hw with heq | hw1
        · rw [heq] at hval ⊢
          exact hfirst x (List.mem_cons_self x zs) hval
        · rcases List.mem_cons.mp hw1 with heq | hw2
          · rw [heq] at hval ⊢
            have hzx : z.2 ≤ x.2 := not_lt.mp hc
            have hxr := le_antisymm (hge x (List.mem_cons_self x zs)) (hval ▸ hzx)
            exact (hfirst x (List.mem_cons_self x zs) hxr).trans (le_of_lt hxz)
          · exact hfirst w (List.mem_cons_of_mem x hw2) hval

theorem idxmax_stable (x : Nat × ℚ) (xs : List (Nat × ℚ))
    (hs : (x :: xs).Pairwise (fun p q => p.1 < q.1)) :
    isStableArgmax (x :: xs) (((idxmax (x :: xs)).map Prod.fst).getD 0) := by
  obtain ⟨hmem, hge, hfirst⟩ := foldlMax_spec xs x hs
  have hid : ((idxmax (x :: xs)).map Prod.fst).getD 0 =
      (xs.foldl (fun b z => if b.2 < z.2 then z else b) x).1 := rfl
  rw [isStableArgmax, hid]
  generalize xs.foldl (fun b z => if b.2 < z.2 then z else b) x = r at hmem hge hfirst ⊢
  exact ⟨r.2, hmem, hge, hfirst⟩

theorem yearlyPairsT_pairwise (samples : List Sample) :
    (yearlyPairsT samples).Pairwise (fun p q => p.1 < q.1) := by
  rw [yearlyPairsT, List.pairwise_map]
  exact yearsOf_sorted_lt samples

theorem yearlyPairsR_pairwise (samples : List Sample) :
    (yearlyPairsR samples).Pairwise (fun p q => p.1 < q.1) := by
  rw [yearlyPairsR, List.pairwise_map]
  exact yearsOf_sorted_lt samples

/-- C9: for every non-empty series, the reported hottest year is a year
of the yearly frame with maximum yearly-mean temperature, and the least
such year (first occurrence in ascending year order); likewise the
wettest year for the yearly-mean rainfall aggregate. -/
theorem hottest_wettest_stable_argmax (samples : List Sample) (A : Analysis)
    (hA : analyze_climate_data (some samples) = some A) :
    isStableArgmax (yearlyPairsT samples) A.hottest_year ∧
    isStableArgmax (yearlyPairsR samples) A.wettest_year := by
  have hne : samples ≠ [] := by
    rintro rfl
    simp [analyze_climate_data] at hA
  rw [analyze_eq_some samples hne] at hA
  obtain rfl := (Option.some.inj hA).symm
  constructor
  · have hTne : yearlyPairsT samples ≠ [] := by
      simp [yearlyPairsT, yearsOf_ne_nil samples hne]
    rcases hT : yearlyPairsT samples with _ | ⟨x, xs⟩
    · exact absurd hT hTne
    · have := idxmax_stable x xs (hT ▸ yearlyPairsT_pairwise samples)
      simpa [hT] using this
  · have hRne : yearlyPairsR samples ≠ [] := by
      simp [yearlyPairsR, yearsOf_ne_nil samples hne]
    rcases hR : yearlyPairsR samples with _ | ⟨x, xs⟩
    · exact absurd hR hRne
    · have := idxmax_stable x xs (hR ▸ yearlyPairsR_pairwise samples)
      simpa [hR] using this

theorem hottest_wettest_stable_argmax_witness :
    isStableArgmax (yearlyPairsT [⟨2000, 1, 20, 5, 10⟩])
      (((idxmax (yearlyPairsT [⟨2000, 1, 20, 5, 10⟩])).map Prod.fst).getD 0) ∧
    isStableArgmax (yearlyPairsR [⟨2000, 1, 20, 5, 10⟩])
      (((idxmax (yearlyPairsR [⟨2000, 1, 20, 5, 10⟩])).map Prod.fst).getD 0) :=
  hottest_wettest_stable_argmax [⟨2000, 1, 20, 5, 10⟩] _
    (analyze_eq_some [⟨2000, 1, 20, 5, 10⟩] (by decide))

/-! ### C6: the reported trend is 10 × the least-squares slope -/

theorem devSq_eq (xs : List ℚ) (x : ℚ) :
    (xs.map (fun t => (t - x) ^ 2)).sum =
      (xs.map (fun t => t * t)).sum - 2 * x * xs.sum + (xs.length : ℚ) * x ^ 2 := by
  induction xs with
  | nil => simp
  | cons y ys ih =>
    simp only [List.map_cons, List.sum_cons, List.length_cons]
    rw [ih]
    push_cast
    ring

theorem devSq_nonneg (xs : List ℚ) (x : ℚ) :
    0 ≤ (xs.map (fun t => (t - x) ^ 2)).sum := by
  apply List.sum_nonneg
  intro v hv
  obtain ⟨t, _, rfl⟩ := List.mem_map.mp hv
  exact sq_nonneg _

theorem devSq_pos (xs : List ℚ) (x : ℚ) (hne : xs ≠ []) (hlt : ∀ t ∈ xs, x < t) :
    0 < (xs.map (fun t => (t - x) ^ 2)).sum := by
  rcases xs with _ | ⟨t, ts⟩
  · exact absurd rfl hne
  simp only [List.map_cons, List.sum_cons]
  have h1 : 0 < (t - x) ^ 2 :=
    pow_pos (sub_pos.mpr (hlt t (List.mem_cons_self t ts))) 2
  have h2 := devSq_nonneg ts x
  linarith

theorem discr_nonneg (xs : List ℚ) :
    0 ≤ (xs.length : ℚ) * (xs.map (fun t => t * t)).sum - xs.sum * xs.sum := by
  induction xs with
  | nil => simp
  | cons x ts ih =>
    have hdev := devSq_nonneg ts x
    rw [devSq_eq] at hdev
    simp only [List.map_cons, List.sum_cons, List.length_cons]
    push_cast
    nlinarith [ih, hdev]

theorem discr_pos (xs : List ℚ) (hp : xs.Pairwise (· < ·)) (h2 : 2 ≤ xs.length) :
    0 < (xs.length : ℚ) * (xs.map (fun t => t * t)).sum - xs.sum * xs.sum := by
  rcases xs with _ | ⟨x, ts⟩
  · simp at h2
  have hts : ts ≠ [] := by
    rintro rfl
    simp at h2
  have hlt : ∀ t ∈ ts, x < t := (List.pairwise_cons.mp hp).1
  have hdev := devSq_pos ts x hts hlt
  rw [devSq_eq] at hdev
  have hih := discr_nonneg ts
  simp only [List.map_cons, List.sum_cons, List.length_cons]
  push_cast
  nlinarith [hih, hdev]

theorem sXX_fst (l : List (ℚ × ℚ)) :
    sXX l = ((l.map Prod.fst).map (fun t => t * t)).sum := by
  rw [sXX, List.map_map]
  rfl

theorem discr_pos_points (l : List (ℚ × ℚ))
    (hp : (l.map Prod.fst).Pairwise (· < ·)) (h2 : 2 ≤ l.length) :
    0 < sN l * sXX l - sX l * sX l := by
  have h := discr_pos (l.map Prod.fst) hp (by simpa using h2)
  rw [sN, sX, sXX_fst]
  simpa using h

theorem lsqError_expand (l : List (ℚ × ℚ)) (a b : ℚ) :
    lsqError l a b =
      sYY l - 2 * a * sXY l - 2 * b * sY l + a ^ 2 * sXX l + 2 * a * b * sX l +
        sN l * b ^ 2 := by
  induction l with
  | nil => simp [lsqError, sYY, sXY, sY, sXX, sX, sN]
  | cons p tl ih =>
    simp only [lsqError, sYY, sXY, sY, sXX, sX, sN, List.map_cons, List.sum_cons,
      List.length_cons] at ih ⊢
    rw [ih]
    push_cast
    ring

theorem ols_normal_equations (l : List (ℚ × ℚ))
    (hd : sN l * sXX l - sX l * sX l ≠ 0) (hn : sN l ≠ 0) :
    olsSlope l * sXX l + olsIntercept l * sX l = sXY l ∧
    olsSlope l * sX l + sN l * olsIntercept l = sY l := by
  have ha : olsSlope l * (sN l * sXX l - sX l * sX l) = sN l * sXY l - sX l * sY l := by
    rw [olsSlope]
    exact div_mul_cancel₀ _ hd
  have hb : sN l * olsIntercept l = sY l - olsSlope l * sX l := by
    rw [olsIntercept]
    field_simp
  constructor
  · have key : sN l * (olsSlope l * sXX l + olsIntercept l * sX l - sXY l) = 0 := by
      linear_combination ha + sX l * hb
    rcases mul_eq_zero.mp key with h | h
    · exact absurd h hn
    · linarith
  · linarith [hb]

theorem ols_optimal (l : List (ℚ × ℚ)) (hd : 0 < sN l * sXX l - sX l * sX l)
    (a b : ℚ) :
    lsqError l (olsSlope l) (olsIntercept l) ≤ lsqError l a b := by
  have hn : 0 < sN l := by
    rcases l with _ | ⟨p, tl⟩
    · rw [show sN ([] : List (ℚ × ℚ)) = 0 from rfl] at hd
      rw [show sXX ([] : List (ℚ × ℚ)) = 0 from rfl] at hd
      rw [show sX ([] : List (ℚ × ℚ)) = 0 from rfl] at hd
      norm_num at hd
    · rw [sN]
      simp only [List.length_cons]
      positivity
  obtain ⟨na, nb⟩ := ols_normal_equations l (ne_of_gt hd) (ne_of_gt hn)
  have key : lsqError l a b - lsqError l (olsSlope l) (olsIntercept l) =
      sXX l * (a - olsSlope l) ^ 2 +
        2 * sX l * (a - olsSlope l) * (b - olsIntercept l) +
        sN l * (b - olsIntercept l) ^ 2 := by
    rw [lsqError_expand, lsqError_expand]
    linear_combination (2 * (a - olsSlope l)) * na + (2 * (b - olsIntercept l)) * nb
  have hval : sN l * (sXX l * (a - olsSlope l) ^ 2 +
      2 * sX l * (a - olsSlope l) * (b - olsIntercept l) +
      sN l * (b - olsIntercept l) ^ 2) =
      (sN l * (b - olsIntercept l) + sX l * (a - olsSlope l)) ^ 2 +
        (sN l * sXX l - sX l * sX l) * (a - olsSlope l) ^ 2 := by
    ring
  nlinarith [key, hval,
    sq_nonneg (sN l * (b - olsIntercept l) + sX l * (a - olsSlope l)),
    mul_nonneg (le_of_lt hd) (sq_nonneg (a - olsSlope l)), hn]

theorem tempPoints_fst_eq (samples : List Sample) :
    (tempPoints samples).map Prod.fst = (yearsOf samples).map (fun (y : Nat) => (y : ℚ)) := by
  simp only [tempPoints, yearlyPairsT, List.map_map]
  rfl

theorem rainPoints_fst_eq (samples : List Sample) :
    (rainPoints samples).map Prod.fst = (yearsOf samples).map (fun (y : Nat) => (y : ℚ)) := by
  simp only [rainPoints, yearlyPairsR, List.map_map]
  rfl

theorem yearsOf_cast_pairwise (samples : List Sample) :
    ((yearsOf samples).map (fun (y : Nat) => (y : ℚ))).Pairwise (· < ·) := by
  rw [List.pairwise_map]
  exact (yearsOf_sorted_lt samples).imp (fun h => by exact_mod_cast h)

theorem tempPoints_length (samples : List Sample) :
    (tempPoints samples).length = (yearsOf samples).length := by
  simp [tempPoints, yearlyPairsT]

theorem rainPoints_length (samples : List Sample) :
    (rainPoints samples).length = (yearsOf samples).length := by
  simp [rainPoints, yearlyPairsR]

/-- C6: for every series spanning at least two distinct years, the
reported temperature (resp. rainfall) trend-per-decade equals 10 times
the slope of the ordinary least-squares linear fit of the yearly-mean
variable against the year — where being the least-squares fit is proved:
the (slope, intercept) pair produced by the closed form minimizes the
sum of squared residuals over all lines. -/
theorem trend_is_ten_times_ols_slope (samples : List Sample)
    (h2 : 2 ≤ (yearsOf samples).length) :
    (analyze_climate_data (some samples)).map
        (fun A => A.temperature_trend_per_decade) =
      some (10 * olsSlope (tempPoints samples)) ∧
    (analyze_climate_data (some samples)).map
        (fun A => A.rainfall_trend_per_decade) =
      some (10 * olsSlope (rainPoints samples)) ∧
    (∀ a b, lsqError (tempPoints samples) (olsSlope (tempPoints samples))
        (olsIntercept (tempPoints samples)) ≤ lsqError (tempPoints samples) a b) ∧
    (∀ a b, lsqError (rainPoints samples) (olsSlope (rainPoints samples))
        (olsIntercept (rainPoints samples)) ≤ lsqError (rainPoints samples) a b) := by
  have hne : samples ≠ [] := by
    rintro rfl
    rw [show yearsOf [] = [] from rfl] at h2
    simp at h2
  have hT : rawTempSlope samples = olsSlope (tempPoints samples) := by
    rw [rawTempSlope, if_pos (by omega)]
  have hR : rawRainSlope samples = olsSlope (rainPoints samples) := by
    rw [rawRainSlope, if_pos (by omega)]
  refine ⟨?_, ?_, ?_, ?_⟩
  · rw [analyze_eq_some samples hne]
    show some (rawTempSlope samples * 10) = some (10 * olsSlope (tempPoints samples))
    rw [hT, mul_comm]
  · rw [analyze_eq_some samples hne]
    show some (rawRainSlope samples * 10) = some (10 * olsSlope (rainPoints samples))
    rw [hR, mul_comm]
  · intro a b
    refine ols_optimal _ (discr_pos_points _ ?_ ?_) a b
    · rw [tempPoints_fst_eq]
      exact yearsOf_cast_pairwise samples
    · rw [tempPoints_length]
      omega
  · intro a b
    refine ols_optimal _ (discr_pos_points _ ?_ ?_) a b
    · rw [rainPoints_fst_eq]
      exact yearsOf_cast_pairwise samples
    · rw [rainPoints_length]
      omega

theorem trend_is_ten_times_ols_slope_witness :
    (analyze_climate_data (some [⟨2000, 1, 20, 5, 10⟩, ⟨2001, 1, 21, 6, 11⟩])).map
        (fun A => A.temperature_trend_per_decade) =
      some (10 * olsSlope (tempPoints [⟨2000, 1, 20, 5, 10⟩, ⟨2001, 1, 21, 6, 11⟩])) :=
  (trend_is_ten_times_ols_slope [⟨2000, 1, 20, 5, 10⟩, ⟨2001, 1, 21, 6, 11⟩]
    (by decide)).1
